import Mathlib

/-!
Shallow embedding of `src/secret_manager/installer.py`.

The installer is modelled as explicit state passing: `St` carries the log
transcript, the record of spawned external commands, and the filesystem
(files as a partial map from path strings to content/mode pairs, plus a set
of directories).  `Env` carries everything the Python process reads from its
surroundings: `platform.system()`, `shutil.which`, `os.environ["SHELL"]`,
the home directory, the script's own directory, the exit code each external
command would return, and which file paths fail on write (modelling the
`try/except` around the rc-file update).  Code that can raise
(`subprocess.run(..., check=True)`) returns `Except Exc Unit × St`, keeping
the state produced up to the raise, as the real process keeps its printed
output.
-/

namespace SecretManager

/-- Severity presentation of a log line: the ANSI color constants of the
source (`GREEN`, `YELLOW`, `RED`, `RESET`). -/
inductive Color where
  | green
  | yellow
  | red
  | reset
deriving DecidableEq, Repr

/-- One emitted log line: the message and its color, as produced by `log`. -/
structure LogMsg where
  msg : String
  color : Color
deriving DecidableEq, Repr

/-- A regular file: its text content and its permission bits (as a `Nat`,
e.g. `493 = 0o755`). -/
structure FileData where
  content : String
  mode : Nat
deriving DecidableEq, Repr

/-- Python exceptions the embedding can raise: `CalledProcessError` from
`subprocess.run(..., check=True)`, and an I/O error from file writes. -/
inductive Exc where
  | calledProcessError (argv : List String) (returncode : Int)
  | ioError (msg : String)
deriving DecidableEq, Repr

/-- The process environment the installer reads. -/
structure Env where
  /-- Value of `platform.system()`. -/
  system : String
  /-- Lookup `shutil.which b` succeeds iff `which b = true`. -/
  which : String → Bool
  /-- Value of `os.environ.get("SHELL")`: `none` when unset. -/
  shellVar : Option String
  /-- Value of `os.path.expanduser("~")`. -/
  home : String
  /-- Value of `os.path.dirname(os.path.abspath(__file__))`. -/
  current_dir : String
  /-- exit status of an external command with the given argv -/
  exitCode : List String → Int
  /-- paths whose `open(..., "a")`/write raises an `OSError` -/
  writeFails : String → Bool

/-- The mutable world: log transcript, spawned commands, files, directories. -/
structure St where
  logs : List LogMsg
  runs : List (List String)
  fs : String → Option FileData
  dirs : String → Bool

/-- The empty world: nothing logged, nothing run, no files, no directories. -/
def St.init : St :=
  { logs := [], runs := [], fs := fun _ => none, dirs := fun _ => false }

/-- Model of `log(msg, color)` of the source: appends one line to the transcript. -/
def St.addLog (st : St) (m : String) (c : Color) : St :=
  { st with logs := st.logs ++ [⟨m, c⟩] }

/-- Model of `os.path.join` for the cases the installer uses (relative last part). -/
def joinPath (a b : String) : String :=
  a ++ "/" ++ b

/-- Test `listStarts s pat` decides whether `pat` is a prefix of `s`. -/
def listStarts : List Char → List Char → Bool
  | _, [] => true
  | [], _ :: _ => false
  | a :: s, b :: p => a == b && listStarts s p

/-- Test `hasSub pat s` decides whether `pat` occurs inside `s` (contiguously). -/
def hasSub (pat : List Char) : List Char → Bool
  | [] => pat.isEmpty
  | c :: rest => listStarts (c :: rest) pat || hasSub pat rest

/-- Python's `pat in s` substring test. -/
def strContains (s pat : String) : Bool :=
  hasSub pat.toList s.toList

/-- Python's `sep.join(xs)`. -/
def pyJoin (sep : String) : List String → String
  | [] => ""
  | [x] => x
  | x :: y :: xs => x ++ sep ++ pyJoin sep (y :: xs)

/-- Model of `subprocess.run(argv, check=check)`: records the spawned command; when
`check` is set and the exit status is non-zero, raises
`CalledProcessError`; otherwise the outcome (in particular any failure of a
non-required command) is ignored. -/
def subprocessRun (env : Env) (argv : List String) (check : Bool) (st : St) :
    Except Exc Unit × St :=
  let st := { st with runs := st.runs ++ [argv] }
  let code := env.exitCode argv
  if check && code != 0 then
    (.error (.calledProcessError argv code), st)
  else
    (.ok (), st)

/-- Model of `install_dependencies()` of the source: OS dispatch, package-manager
lookup, and the per-platform command sequences. -/
def install_dependencies (env : Env) (st : St) : Except Exc Unit × St :=
  let system := env.system
  let st := st.addLog (s!"Detected OS: {system}") Color.green
  if system = "Darwin" then
    if env.which "brew" then
      let st := st.addLog "Installing dependencies via Homebrew..." Color.yellow
      let (_, st) := subprocessRun env ["brew", "install", "--cask", "keepassxc"] false st
      subprocessRun env ["brew", "install", "jq", "gnupg"] true st
    else
      (.ok (), st.addLog "Homebrew not found. Please install keepassxc, jq, and gnupg manually." Color.red)
  else if system = "Linux" then
    if env.which "apt-get" then
      let st := st.addLog "Installing dependencies via apt-get (sudo required)..." Color.yellow
      match subprocessRun env ["sudo", "apt-get", "update"] true st with
      | (.error e, st) => (.error e, st)
      | (.ok _, st) =>
        subprocessRun env ["sudo", "apt-get", "install", "-y", "keepassxc", "jq", "gnupg"] true st
    else
      (.ok (), st.addLog "apt-get not found. Please install keepassxc, jq, and gnupg manually." Color.red)
  else if system = "Windows" then
    let st := st.addLog "Windows detected. Please ensure Chocolatey is installed." Color.yellow
    if env.which "choco" then
      subprocessRun env ["choco", "install", "keepassxc", "jq", "gnupg", "-y"] true st
    else
      (.ok (), st.addLog "Chocolatey not found. Please install keepassxc, jq, and gpg4win manually." Color.red)
  else
    (.ok (), st.addLog (s!"Unsupported OS: {system}. Please manually install keepassxc, jq, and gnupg.") Color.red)

/-- The fixed asset list `files_to_copy` of `setup_files`. -/
def files_to_copy : List String :=
  ["manage-secrets.sh", "get-secrets.js"]

/-- One iteration of the copy loop in `setup_files`: if the source exists,
`shutil.copy2` then `os.chmod(dst, 0o755)` (so the destination gets the
source's content with mode `0o755 = 493`); otherwise a warning naming the
asset. -/
def copyFile (assets_dir target_dir filename : String) (st : St) : St :=
  let src := joinPath assets_dir filename
  let dst := joinPath target_dir filename
  match st.fs src with
  | some fd =>
    let st := { st with
      fs := fun p => if p = dst then some { content := fd.content, mode := 493 } else st.fs p }
    st.addLog (s!"Copied {filename} to {target_dir}") Color.green
  | none =>
    st.addLog (s!"Warning: Asset {filename} not found in {assets_dir}") Color.red

/-- Path `os.path.join(home, ".secret-manager")`: the install target. -/
def targetDirOf (env : Env) : String :=
  joinPath env.home ".secret-manager"

/-- Path `os.path.join(current_dir, "assets")`: where the bundled assets live. -/
def assetsDirOf (env : Env) : String :=
  joinPath env.current_dir "assets"

/-- The directory-creation prologue of `setup_files`: `os.makedirs` guarded
by `os.path.exists`. -/
def ensureTargetDir (env : Env) (st : St) : St :=
  let target_dir := targetDirOf env
  if st.dirs target_dir || (st.fs target_dir).isSome then st
  else
    let st := { st with dirs := fun q => q == target_dir || st.dirs q }
    st.addLog (s!"Created directory: {target_dir}") Color.green

/-- Model of `setup_files()` of the source: create `~/.secret-manager` if absent,
copy each asset from the script's `assets` directory, return the target
directory path. -/
def setup_files (env : Env) (st : St) : String × St :=
  let target_dir := targetDirOf env
  let st := ensureTargetDir env st
  let assets_dir := assetsDirOf env
  let st := files_to_copy.foldl (fun st filename => copyFile assets_dir target_dir filename st) st
  (target_dir, st)

/-- The `config_lines` list of `configure_shell`, with the install path
substituted into the export line.  The apostrophes of the alias lines are
written `\x27`. -/
def config_lines (install_path : String) : List String :=
  ["\n# Secret Manager Configuration",
   "export SECRETS_MANAGER_PATH=\"" ++ install_path ++ "/manage-secrets.sh\"",
   "alias secret-add=\x27$SECRETS_MANAGER_PATH add\x27",
   "alias secret-ls=\x27$SECRETS_MANAGER_PATH ls\x27",
   "alias secret-apply=\x27$SECRETS_MANAGER_PATH apply\x27"]

/-- The exact text appended to the rc file:
`f.write("\n".join(config_lines)); f.write("\n")`. -/
def blockText (install_path : String) : String :=
  pyJoin "\n" (config_lines install_path) ++ "\n"

/-- The rc-file choice of `configure_shell`: substring classification of
`SHELL` (unset reads as `""`), `zsh` tested before `bash`, the bash file
depending on `platform.system()`. -/
def rcFileFor (env : Env) : Option String :=
  let shell := env.shellVar.getD ""
  if strContains shell "zsh" then
    some (joinPath env.home ".zshrc")
  else if strContains shell "bash" then
    some (if env.system = "Darwin" then joinPath env.home ".bash_profile"
          else joinPath env.home ".bashrc")
  else
    none

/-- The duplicate-detection test of `configure_shell`: the file exists and
its text contains the marker substring `SECRETS_MANAGER_PATH`. -/
def markerPresent : Option FileData → Bool
  | some fd => strContains fd.content "SECRETS_MANAGER_PATH"
  | none => false

/-- Content of an optional file, `""` when absent (what an `"a"`-mode open
starts from). -/
def oldContent : Option FileData → String
  | some fd => fd.content
  | none => ""

/-- Mode of an optional file; `420 = 0o644`, the creation mode of an
`"a"`-mode open, when absent. -/
def oldMode : Option FileData → Nat
  | some fd => fd.mode
  | none => 420

/-- The model's rendering of the `OSError` caught by the `try/except`
around the rc-file update. -/
def writeErrMsg : String := "I/O error"

/-- The body of `configure_shell` once an rc file has been chosen: the
"Configuring" log, the marker check, the guarded append, and the local
`try/except` that turns a write failure into an error log. -/
def configure_rc (env : Env) (install_path rc : String) (st : St) : St :=
  let st := st.addLog (s!"Configuring {rc}...") Color.yellow
  if markerPresent (st.fs rc) then
    st.addLog "Configuration already exists in RC file. Skipping append." Color.yellow
  else if env.writeFails rc then
    st.addLog (s!"Failed to update {rc}: {writeErrMsg}") Color.red
  else
    let newFile : FileData :=
      { content := oldContent (st.fs rc) ++ blockText install_path, mode := oldMode (st.fs rc) }
    let st := { st with fs := fun p => if p = rc then some newFile else st.fs p }
    let st := st.addLog (s!"Successfully configured {rc}") Color.green
    let st := st.addLog "IMPORTANT: Please restart your terminal or run:" Color.yellow
    st.addLog (s!"  source {rc}") Color.yellow

/-- Model of `configure_shell(install_path)` of the source. -/
def configure_shell (env : Env) (install_path : String) (st : St) : St :=
  match rcFileFor env with
  | none =>
    st.addLog "Could not detect shell RC file. Please manually add configuration." Color.red
  | some rc => configure_rc env install_path rc st

/-- String rendering of a raised exception, as interpolated into the
failure log of `main`. -/
def Exc.render : Exc → String
  | .calledProcessError argv code =>
    s!"Command {argv} returned non-zero exit status {code}."
  | .ioError m => m

/-- Model of `main()` of the source: the banner, the three stages in order, the
success log, and the top-level `except` that logs the failure and exits 1;
returns the process exit code with the final state. -/
def main (env : Env) (st : St) : Nat × St :=
  let st := st.addLog "=== Secret Manager Installer ===" Color.green
  match install_dependencies env st with
  | (.error e, st) =>
    let m := Exc.render e
    (1, st.addLog (s!"\nInstallation failed: {m}") Color.red)
  | (.ok _, st) =>
    let (target_dir, st) := setup_files env st
    let st := configure_shell env target_dir st
    let st := st.addLog "\nInstallation Complete! 🚀" Color.green
    (0, st)

/-- The argv lists the source runs with `check=True` (required commands). -/
def requiredCmds : List (List String) :=
  [["brew", "install", "jq", "gnupg"],
   ["sudo", "apt-get", "update"],
   ["sudo", "apt-get", "install", "-y", "keepassxc", "jq", "gnupg"],
   ["choco", "install", "keepassxc", "jq", "gnupg", "-y"]]

/-- The package-manager binary each OS branch checks for with
`shutil.which`. -/
def pmFor : String → Option String
  | "Darwin" => some "brew"
  | "Linux" => some "apt-get"
  | "Windows" => some "choco"
  | _ => none

/-! ### Basic state lemmas -/

@[simp] lemma St.addLog_fs (st : St) (m : String) (c : Color) :
    (st.addLog m c).fs = st.fs := rfl

@[simp] lemma St.addLog_dirs (st : St) (m : String) (c : Color) :
    (st.addLog m c).dirs = st.dirs := rfl

@[simp] lemma St.addLog_runs (st : St) (m : String) (c : Color) :
    (st.addLog m c).runs = st.runs := rfl

@[simp] lemma St.addLog_logs (st : St) (m : String) (c : Color) :
    (st.addLog m c).logs = st.logs ++ [⟨m, c⟩] := rfl

/-! ### Substring lemmas

`strContains` is Python's `in` on strings; the idempotence argument needs
that occurrence is preserved by appending on either side, and that the
marker occurs in the appended block. -/

lemma listStarts_append (pat s t : List Char) (h : listStarts s pat = true) :
    listStarts (s ++ t) pat = true := by
  induction pat generalizing s with
  | nil => simp [listStarts]
  | cons b p ih =>
    cases s with
    | nil => simp [listStarts] at h
    | cons a s =>
      simp only [listStarts, Bool.and_eq_true] at h
      simp only [List.cons_append, listStarts, Bool.and_eq_true]
      exact ⟨h.1, ih s h.2⟩

lemma hasSub_nil (l : List Char) : hasSub [] l = true := by
  cases l with
  | nil => rfl
  | cons c r => simp [hasSub, listStarts]

lemma hasSub_append_right (pat s t : List Char) (h : hasSub pat s = true) :
    hasSub pat (s ++ t) = true := by
  induction s with
  | nil =>
    simp only [hasSub, List.isEmpty_iff] at h
    subst h
    simpa using hasSub_nil t
  | cons c rest ih =>
    simp only [hasSub, Bool.or_eq_true] at h
    rcases h with h | h
    · simp only [List.cons_append, hasSub, Bool.or_eq_true]
      exact Or.inl (listStarts_append pat (c :: rest) t h)
    · simp only [List.cons_append, hasSub, Bool.or_eq_true]
      exact Or.inr (ih h)

lemma hasSub_append_left (pat s t : List Char) (h : hasSub pat t = true) :
    hasSub pat (s ++ t) = true := by
  induction s with
  | nil => simpa using h
  | cons c rest ih =>
    simp only [List.cons_append, hasSub, Bool.or_eq_true]
    exact Or.inr ih

lemma strContains_append_of_left (a b pat : String)
    (h : strContains a pat = true) : strContains (a ++ b) pat = true := by
  simp only [strContains, String.toList] at h ⊢
  rw [String.data_append]
  exact hasSub_append_right _ _ _ h

lemma strContains_append_of_right (a b pat : String)
    (h : strContains b pat = true) : strContains (a ++ b) pat = true := by
  simp only [strContains, String.toList] at h ⊢
  rw [String.data_append]
  exact hasSub_append_left _ _ _ h

/-- The marker substring occurs in the appended configuration block,
whatever the install path and whatever text precedes the block. -/
lemma strContains_blockText (p old : String) :
    strContains (old ++ blockText p) "SECRETS_MANAGER_PATH" = true := by
  apply strContains_append_of_right
  show strContains (pyJoin "\n" (config_lines p) ++ "\n") _ = true
  apply strContains_append_of_left
  simp only [config_lines, pyJoin]
  apply strContains_append_of_right
  apply strContains_append_of_right
  apply strContains_append_of_left
  apply strContains_append_of_left
  decide

/-! ### `configure_shell` case analysis -/

/-- No rc file classified: only the warning log is added. -/
lemma configure_shell_none (env : Env) (p : String) (st : St)
    (h : rcFileFor env = none) :
    configure_shell env p st =
      st.addLog "Could not detect shell RC file. Please manually add configuration." Color.red := by
  simp [configure_shell, h]

/-- Marker already present: the two logs are added, nothing else changes. -/
lemma configure_rc_skip (env : Env) (p rc : String) (st : St)
    (hm : markerPresent (st.fs rc) = true) :
    configure_rc env p rc st =
      (st.addLog (s!"Configuring {rc}...") Color.yellow).addLog
        "Configuration already exists in RC file. Skipping append." Color.yellow := by
  simp [configure_rc, hm]

/-- When an rc file is classified, `configure_shell` is its body. -/
lemma configure_shell_some (env : Env) (p rc : String) (st : St)
    (h : rcFileFor env = some rc) :
    configure_shell env p st = configure_rc env p rc st := by
  simp [configure_shell, h]

/-- Marker absent but the write fails: the error log is added, the
filesystem is untouched. -/
lemma configure_rc_fail (env : Env) (p rc : String) (st : St)
    (hm : markerPresent (st.fs rc) = false) (hw : env.writeFails rc = true) :
    configure_rc env p rc st =
      (st.addLog (s!"Configuring {rc}...") Color.yellow).addLog
        (s!"Failed to update {rc}: {writeErrMsg}") Color.red := by
  simp [configure_rc, hm, hw]

/-- Marker absent and the write succeeds: the block is appended at `rc`,
no other path changes, four logs are added. -/
lemma configure_rc_write (env : Env) (p rc : String) (st : St)
    (hm : markerPresent (st.fs rc) = false) (hw : env.writeFails rc = false) :
    configure_rc env p rc st =
      { st with
        fs := fun q => if q = rc then
            some { content := oldContent (st.fs rc) ++ blockText p,
                   mode := oldMode (st.fs rc) }
          else st.fs q,
        logs := st.logs ++
          [⟨s!"Configuring {rc}...", Color.yellow⟩,
           ⟨s!"Successfully configured {rc}", Color.green⟩,
           ⟨"IMPORTANT: Please restart your terminal or run:", Color.yellow⟩,
           ⟨s!"  source {rc}", Color.yellow⟩] } := by
  simp [configure_rc, hm, hw, St.addLog]

/-- The filesystem after `configure_shell`, in every case: either untouched,
or updated at exactly the selected rc path with the block appended. -/
lemma configure_shell_fs (env : Env) (p : String) (st : St) :
    (configure_shell env p st).fs = st.fs ∨
    ∃ rc, rcFileFor env = some rc ∧
      markerPresent (st.fs rc) = false ∧ env.writeFails rc = false ∧
      (configure_shell env p st).fs = fun q => if q = rc then
          some { content := oldContent (st.fs rc) ++ blockText p,
                 mode := oldMode (st.fs rc) }
        else st.fs q := by
  cases hrc : rcFileFor env with
  | none => left; rw [configure_shell_none env p st hrc]; rfl
  | some rc =>
    rw [configure_shell_some env p rc st hrc]
    cases hm : markerPresent (st.fs rc) with
    | true =>
      left
      rw [configure_rc_skip env p rc st hm]
      rfl
    | false =>
      cases hw : env.writeFails rc with
      | true =>
        left
        rw [configure_rc_fail env p rc st hm hw]
        rfl
      | false =>
        right
        refine ⟨rc, rfl, hm, hw, ?_⟩
        rw [configure_rc_write env p rc st hm hw]

/-- After a successful append the marker is present at the rc path, so a
second run takes the skip branch: the filesystem is a fixed point of a
second `configure_shell`. -/
lemma configure_shell_fs_idem (env : Env) (p : String) (st : St) :
    (configure_shell env p (configure_shell env p st)).fs =
      (configure_shell env p st).fs := by
  cases hrc : rcFileFor env with
  | none =>
    rw [configure_shell_none env p st hrc,
        configure_shell_none env p _ hrc]
    rfl
  | some rc =>
    rw [configure_shell_some env p rc st hrc]
    cases hm : markerPresent (st.fs rc) with
    | true =>
      rw [configure_rc_skip env p rc st hm]
      have hm2 : markerPresent
          (((st.addLog (s!"Configuring {rc}...") Color.yellow).addLog
            "Configuration already exists in RC file. Skipping append." Color.yellow).fs rc) = true := by
        simpa using hm
      rw [configure_shell_some env p rc _ hrc,
          configure_rc_skip env p rc _ hm2]
      rfl
    | false =>
      cases hw : env.writeFails rc with
      | true =>
        rw [configure_rc_fail env p rc st hm hw]
        have hm2 : markerPresent
            (((st.addLog (s!"Configuring {rc}...") Color.yellow).addLog
              (s!"Failed to update {rc}: {writeErrMsg}") Color.red).fs rc) = false := by
          simpa using hm
        rw [configure_shell_some env p rc _ hrc,
            configure_rc_fail env p rc _ hm2 hw]
        rfl
      | false =>
        rw [configure_rc_write env p rc st hm hw]
        set stW : St :=
          { st with
            fs := fun q => if q = rc then
                some { content := oldContent (st.fs rc) ++ blockText p,
                       mode := oldMode (st.fs rc) }
              else st.fs q,
            logs := st.logs ++
              [⟨s!"Configuring {rc}...", Color.yellow⟩,
               ⟨s!"Successfully configured {rc}", Color.green⟩,
               ⟨"IMPORTANT: Please restart your terminal or run:", Color.yellow⟩,
               ⟨s!"  source {rc}", Color.yellow⟩] } with hstW
        have hfs : stW.fs rc =
            some { content := oldContent (st.fs rc) ++ blockText p,
                   mode := oldMode (st.fs rc) } := by
          rw [hstW]; simp
        have hm2 : markerPresent (stW.fs rc) = true := by
          rw [hfs]
          exact strContains_blockText p (oldContent (st.fs rc))
        rw [configure_shell_some env p rc stW hrc,
            configure_rc_skip env p rc stW hm2]
        rfl

/-! ### `install_dependencies` case analysis -/

/-- On macOS with Homebrew present, the optional cask install is spawned
and its outcome discarded: the state reaching the required install carries
only the two pre-invocation logs and the recorded cask argv, whatever exit
status the cask command produced. -/
lemma install_deps_darwin_brew (env : Env) (st : St)
    (h1 : env.system = "Darwin") (h2 : env.which "brew" = true) :
    install_dependencies env st =
      subprocessRun env ["brew", "install", "jq", "gnupg"] true
        { st with
          logs := st.logs ++ [⟨"Detected OS: Darwin", Color.green⟩,
                              ⟨"Installing dependencies via Homebrew...", Color.yellow⟩],
          runs := st.runs ++ [["brew", "install", "--cask", "keepassxc"]] } := by
  simp [install_dependencies, h1, h2, subprocessRun, St.addLog, List.append_assoc]
  rfl

/-- When the branch's package manager is absent (or the OS is unsupported),
`install_dependencies` only logs: no command is spawned, no exception is
raised, and a red manual-install guidance line is among the new logs. -/
lemma install_deps_no_pm (env : Env) (st : St)
    (h : ∀ b, pmFor env.system = some b → env.which b = false) :
    ∃ msgs, install_dependencies env st = (.ok (), { st with logs := st.logs ++ msgs }) ∧
      msgs ≠ [] ∧ ∃ m ∈ msgs, strContains m.msg "manually" = true ∧ m.color = Color.red := by
  by_cases hD : env.system = "Darwin"
  · have hb : env.which "brew" = false := h "brew" (by rw [hD]; rfl)
    refine ⟨[⟨"Detected OS: Darwin", Color.green⟩,
             ⟨"Homebrew not found. Please install keepassxc, jq, and gnupg manually.", Color.red⟩],
            ?_, by simp, ?_⟩
    · simp [install_dependencies, hD, hb, St.addLog, List.append_assoc]
      rfl
    · exact ⟨⟨"Homebrew not found. Please install keepassxc, jq, and gnupg manually.", Color.red⟩,
        by simp, by decide, rfl⟩
  by_cases hL : env.system = "Linux"
  · have hb : env.which "apt-get" = false := h "apt-get" (by rw [hL]; rfl)
    refine ⟨[⟨"Detected OS: Linux", Color.green⟩,
             ⟨"apt-get not found. Please install keepassxc, jq, and gnupg manually.", Color.red⟩],
            ?_, by simp, ?_⟩
    · simp [install_dependencies, hD, hL, hb, St.addLog, List.append_assoc]
      rfl
    · exact ⟨⟨"apt-get not found. Please install keepassxc, jq, and gnupg manually.", Color.red⟩,
        by simp, by decide, rfl⟩
  by_cases hW : env.system = "Windows"
  · have hb : env.which "choco" = false := h "choco" (by rw [hW]; rfl)
    refine ⟨[⟨"Detected OS: Windows", Color.green⟩,
             ⟨"Windows detected. Please ensure Chocolatey is installed.", Color.yellow⟩,
             ⟨"Chocolatey not found. Please install keepassxc, jq, and gpg4win manually.", Color.red⟩],
            ?_, by simp, ?_⟩
    · simp [install_dependencies, hD, hL, hW, hb, St.addLog, List.append_assoc]
      rfl
    · refine ⟨⟨"Chocolatey not found. Please install keepassxc, jq, and gpg4win manually.", Color.red⟩,
        by simp, by decide, rfl⟩
  · refine ⟨[⟨"Detected OS: " ++ env.system, Color.green⟩,
             ⟨"Unsupported OS: " ++ env.system ++ ". Please manually install keepassxc, jq, and gnupg.",
              Color.red⟩],
            ?_, by simp, ?_⟩
    · simp [install_dependencies, hD, hL, hW, St.addLog, List.append_assoc, toString]
    · refine ⟨⟨"Unsupported OS: " ++ env.system ++ ". Please manually install keepassxc, jq, and gnupg.",
        Color.red⟩, by simp, ?_, rfl⟩
      apply strContains_append_of_right
      decide

/-- The only way `install_dependencies` raises: a `CalledProcessError` from
one of the four `check=True` command invocations, with the non-zero exit
status the environment assigned to that argv. -/
lemma install_deps_error (env : Env) (st : St) (e : Exc) (st' : St)
    (h : install_dependencies env st = (.error e, st')) :
    ∃ argv code, e = .calledProcessError argv code ∧ argv ∈ requiredCmds ∧
      env.exitCode argv = code ∧ code ≠ 0 := by
  by_cases hD : env.system = "Darwin"
  · by_cases hb : env.which "brew" = true
    · by_cases hc : env.exitCode ["brew", "install", "jq", "gnupg"] = 0
      · simp [install_dependencies, subprocessRun, hD, hb, hc] at h
      · simp [install_dependencies, subprocessRun, hD, hb, hc] at h
        exact ⟨["brew", "install", "jq", "gnupg"], _, h.1.symm,
          by simp [requiredCmds], rfl, hc⟩
    · simp [install_dependencies, hD, hb] at h
  by_cases hL : env.system = "Linux"
  · by_cases hb : env.which "apt-get" = true
    · by_cases hc1 : env.exitCode ["sudo", "apt-get", "update"] = 0
      · by_cases hc2 : env.exitCode ["sudo", "apt-get", "install", "-y", "keepassxc", "jq", "gnupg"] = 0
        · simp [install_dependencies, subprocessRun, hD, hL, hb, hc1, hc2] at h
        · simp [install_dependencies, subprocessRun, hD, hL, hb, hc1, hc2] at h
          exact ⟨["sudo", "apt-get", "install", "-y", "keepassxc", "jq", "gnupg"], _,
            h.1.symm, by simp [requiredCmds], rfl, hc2⟩
      · simp [install_dependencies, subprocessRun, hD, hL, hb, hc1] at h
        exact ⟨["sudo", "apt-get", "update"], _, h.1.symm,
          by simp [requiredCmds], rfl, hc1⟩
    · simp [install_dependencies, hD, hL, hb] at h
  by_cases hW : env.system = "Windows"
  · by_cases hb : env.which "choco" = true
    · by_cases hc : env.exitCode ["choco", "install", "keepassxc", "jq", "gnupg", "-y"] = 0
      · simp [install_dependencies, subprocessRun, hD, hL, hW, hb, hc] at h
      · simp [install_dependencies, subprocessRun, hD, hL, hW, hb, hc] at h
        exact ⟨["choco", "install", "keepassxc", "jq", "gnupg", "-y"], _, h.1.symm,
          by simp [requiredCmds], rfl, hc⟩
    · simp [install_dependencies, hD, hL, hW, hb] at h
  · simp [install_dependencies, hD, hL, hW] at h

/-! ### `setup_files` case analysis -/

@[simp] lemma ensureTargetDir_fs (env : Env) (st : St) :
    (ensureTargetDir env st).fs = st.fs := by
  by_cases hd : (st.dirs (targetDirOf env) || (st.fs (targetDirOf env)).isSome) = true <;>
    simp [ensureTargetDir, hd]

@[simp] lemma ensureTargetDir_runs (env : Env) (st : St) :
    (ensureTargetDir env st).runs = st.runs := by
  by_cases hd : (st.dirs (targetDirOf env) || (st.fs (targetDirOf env)).isSome) = true <;>
    simp [ensureTargetDir, hd]

/-- Unfolding of `setup_files`: the directory prologue, the copy of
`manage-secrets.sh`, the copy of `get-secrets.js`, and the returned target
directory. -/
lemma setup_files_eq (env : Env) (st : St) :
    setup_files env st =
      (targetDirOf env,
       copyFile (assetsDirOf env) (targetDirOf env) "get-secrets.js"
         (copyFile (assetsDirOf env) (targetDirOf env) "manage-secrets.sh"
           (ensureTargetDir env st))) := rfl

lemma copyFile_fs_some (a t n : String) (st : St) (fd : FileData)
    (h : st.fs (joinPath a n) = some fd) :
    (copyFile a t n st).fs =
      fun p => if p = joinPath t n then some { content := fd.content, mode := 493 }
        else st.fs p := by
  simp [copyFile, h]

lemma copyFile_fs_none (a t n : String) (st : St)
    (h : st.fs (joinPath a n) = none) :
    (copyFile a t n st).fs = st.fs := by
  simp [copyFile, h]

lemma copyFile_logs_none (a t n : String) (st : St)
    (h : st.fs (joinPath a n) = none) :
    (copyFile a t n st).logs =
      st.logs ++ [⟨s!"Warning: Asset {n} not found in {a}", Color.red⟩] := by
  simp [copyFile, h]

/-! ### Path disequalities

The two asset file names end in different characters, so no path built by
appending one of them ever collides with a path built by appending the
other, whatever the directories involved. -/

lemma head_rev_append (s x : String) (c : Char)
    (h : x.data.reverse.head? = some c) :
    ((s ++ x).data.reverse).head? = some c := by
  rw [String.data_append, List.reverse_append]
  cases hx : x.data.reverse with
  | nil => rw [hx] at h; cases h
  | cons a l =>
    rw [hx] at h
    simpa using h

lemma ne_of_ends (s t x y : String) (cx cy : Char)
    (hx : x.data.reverse.head? = some cx) (hy : y.data.reverse.head? = some cy)
    (hne : cx ≠ cy) : s ++ x ≠ t ++ y := by
  intro h
  have h1 := head_rev_append s x cx hx
  have h2 := head_rev_append t y cy hy
  rw [h, h2] at h1
  exact hne (Option.some.inj h1).symm

lemma join_sh_ne_js (t a : String) :
    joinPath t "manage-secrets.sh" ≠ joinPath a "get-secrets.js" :=
  ne_of_ends (t ++ "/") (a ++ "/") "manage-secrets.sh" "get-secrets.js" 'h' 's'
    (by decide) (by decide) (by decide)

/-! ### Further helpers shared by the claim theorems -/

/-- The five lines of the configuration block (comment header, export,
three aliases), without their terminating newlines: the first element of
`config_lines` starts with the blank-line `\n` that precedes the block, so
these are the lines proper. -/
def blockLines (install_path : String) : List String :=
  ["# Secret Manager Configuration",
   "export SECRETS_MANAGER_PATH=\"" ++ install_path ++ "/manage-secrets.sh\"",
   "alias secret-add=\x27$SECRETS_MANAGER_PATH add\x27",
   "alias secret-ls=\x27$SECRETS_MANAGER_PATH ls\x27",
   "alias secret-apply=\x27$SECRETS_MANAGER_PATH apply\x27"]

/-- The appended text is one blank line followed by the five block lines,
each terminated by a newline. -/
lemma blockText_eq (p : String) :
    blockText p = "\n" ++ String.join ((blockLines p).map (fun l => l ++ "\n")) := by
  simp [blockText, config_lines, pyJoin, blockLines, String.join, String.append_assoc]
  rw [show ("\n# Secret Manager Configuration\n" : String) =
    "\n" ++ "# Secret Manager Configuration\n" by simp]
  rw [String.append_assoc]

lemma subprocessRun_logs (env : Env) (argv : List String) (check : Bool) (st : St) :
    (subprocessRun env argv check st).2.logs = st.logs := by
  by_cases hc : (check && env.exitCode argv != 0) = true <;>
    simp [subprocessRun, hc]

/-- When `install_dependencies` succeeds, `main` returns exit code `0`. -/
lemma main_ok_of_deps_ok (env : Env) (st : St)
    (h : (install_dependencies env
      (st.addLog "=== Secret Manager Installer ===" Color.green)).1 = .ok ()) :
    (main env st).1 = 0 := by
  rcases hI : install_dependencies env
      (st.addLog "=== Secret Manager Installer ===" Color.green) with ⟨r, stA⟩
  rw [hI] at h
  cases r with
  | error e => simp at h
  | ok u =>
    cases u
    simp [main, hI]

/-! ### Concrete inputs for the witnesses -/

/-- A Linux host with `SHELL=/bin/zsh`, no package managers on the path,
all commands succeeding, no write failures. -/
def envZsh : Env :=
  { system := "Linux", which := fun _ => false, shellVar := some "/bin/zsh",
    home := "/home/u", current_dir := "/inst", exitCode := fun _ => 0,
    writeFails := fun _ => false }

/-- Like `envZsh` but with `SHELL` entirely unset. -/
def envNoShell : Env :=
  { system := "Linux", which := fun _ => false, shellVar := none,
    home := "/home/u", current_dir := "/inst", exitCode := fun _ => 0,
    writeFails := fun _ => false }

/-- A state whose `~/.zshrc` already contains the marker substring. -/
def stMarked : St :=
  { logs := [], runs := [],
    fs := fun p => if p = "/home/u/.zshrc" then
        some { content := "export SECRETS_MANAGER_PATH=\"/x/manage-secrets.sh\"", mode := 420 }
      else none,
    dirs := fun _ => false }

/-! ### Claim C1 -/

/-- C1: `configure_shell` is idempotent.  When the selected rc file already
contains the marker substring `SECRETS_MANAGER_PATH`, the run only logs the
"already exists" message and leaves every file untouched; and
unconditionally, running `configure_shell` a second time leaves the
filesystem of the first run unchanged, so a second installer run cannot
produce a second configuration block. -/
theorem claim_C1_configure_shell_idempotent (env : Env) (p rc : String) (st : St)
    (fd : FileData) (hrc : rcFileFor env = some rc) (hfd : st.fs rc = some fd)
    (hmark : strContains fd.content "SECRETS_MANAGER_PATH" = true) :
    (configure_shell env p st).fs = st.fs ∧
    (configure_shell env p st).logs = st.logs ++
      [⟨s!"Configuring {rc}...", Color.yellow⟩,
       ⟨"Configuration already exists in RC file. Skipping append.", Color.yellow⟩] ∧
    ∀ env2 p2 st2, (configure_shell env2 p2 (configure_shell env2 p2 st2)).fs =
      (configure_shell env2 p2 st2).fs := by
  have hm : markerPresent (st.fs rc) = true := by
    rw [hfd]
    exact hmark
  rw [configure_shell_some env p rc st hrc, configure_rc_skip env p rc st hm]
  exact ⟨rfl, by simp, fun env2 p2 st2 => configure_shell_fs_idem env2 p2 st2⟩

theorem claim_C1_witness :
    (configure_shell envZsh "/x" stMarked).fs = stMarked.fs :=
  (claim_C1_configure_shell_idempotent envZsh "/x" "/home/u/.zshrc" stMarked
    { content := "export SECRETS_MANAGER_PATH=\"/x/manage-secrets.sh\"", mode := 420 }
    (by decide) (by decide) (by decide)).1

/-! ### Claim C5 -/

/-- C5: shell classification is by substring match on `SHELL`, `zsh` before
`bash`, first match winning: a `SHELL` containing `zsh` selects
`~/.zshrc`; one containing `bash` but not `zsh` selects `~/.bash_profile`
on Darwin and `~/.bashrc` otherwise; any other value makes
`configure_shell` log the warning and return the state otherwise
unchanged. -/
theorem claim_C5_shell_classification (env : Env) :
    (strContains (env.shellVar.getD "") "zsh" = true →
      rcFileFor env = some (joinPath env.home ".zshrc")) ∧
    (strContains (env.shellVar.getD "") "zsh" = false →
      strContains (env.shellVar.getD "") "bash" = true →
      rcFileFor env = some (if env.system = "Darwin" then joinPath env.home ".bash_profile"
        else joinPath env.home ".bashrc")) ∧
    (strContains (env.shellVar.getD "") "zsh" = false →
      strContains (env.shellVar.getD "") "bash" = false →
      rcFileFor env = none ∧
      ∀ p st, configure_shell env p st =
        st.addLog "Could not detect shell RC file. Please manually add configuration." Color.red) := by
  refine ⟨fun h1 => by simp [rcFileFor, h1], fun h1 h2 => by simp [rcFileFor, h1, h2],
    fun h1 h2 => ⟨by simp [rcFileFor, h1, h2],
      fun p st => configure_shell_none env p st (by simp [rcFileFor, h1, h2])⟩⟩

theorem claim_C5_witness :
    rcFileFor envZsh = some (joinPath envZsh.home ".zshrc") :=
  (claim_C5_shell_classification envZsh).1 (by decide)

/-! ### Claim C6 -/

/-- C6: when the marker is absent, `configure_shell` appends to the
selected rc file (creating it if absent) exactly one blank line followed by
five newline-terminated lines: the comment header, the export binding
`SECRETS_MANAGER_PATH` to the install path plus `/manage-secrets.sh`, and
the three aliases. -/
theorem claim_C6_block_append (env : Env) (p rc : String) (st : St)
    (hrc : rcFileFor env = some rc)
    (hm : markerPresent (st.fs rc) = false)
    (hw : env.writeFails rc = false) :
    ∃ fd, (configure_shell env p st).fs rc = some fd ∧
      fd.content = oldContent (st.fs rc) ++
        ("\n" ++ String.join ((blockLines p).map (fun l => l ++ "\n"))) ∧
      (blockLines p).length = 5 ∧
      blockLines p = ["# Secret Manager Configuration",
        "export SECRETS_MANAGER_PATH=\"" ++ p ++ "/manage-secrets.sh\"",
        "alias secret-add=\x27$SECRETS_MANAGER_PATH add\x27",
        "alias secret-ls=\x27$SECRETS_MANAGER_PATH ls\x27",
        "alias secret-apply=\x27$SECRETS_MANAGER_PATH apply\x27"] := by
  rw [configure_shell_some env p rc st hrc, configure_rc_write env p rc st hm hw]
  refine ⟨{ content := oldContent (st.fs rc) ++ blockText p, mode := oldMode (st.fs rc) },
    by simp, ?_, rfl, rfl⟩
  rw [blockText_eq]

theorem claim_C6_witness :
    ∃ fd, (configure_shell envZsh "/x" St.init).fs "/home/u/.zshrc" = some fd ∧
      fd.content = oldContent (St.init.fs "/home/u/.zshrc") ++
        ("\n" ++ String.join ((blockLines "/x").map (fun l => l ++ "\n"))) ∧
      (blockLines "/x").length = 5 ∧
      blockLines "/x" = ["# Secret Manager Configuration",
        "export SECRETS_MANAGER_PATH=\"" ++ "/x" ++ "/manage-secrets.sh\"",
        "alias secret-add=\x27$SECRETS_MANAGER_PATH add\x27",
        "alias secret-ls=\x27$SECRETS_MANAGER_PATH ls\x27",
        "alias secret-apply=\x27$SECRETS_MANAGER_PATH apply\x27"] :=
  claim_C6_block_append envZsh "/x" "/home/u/.zshrc" St.init
    (by decide) (by decide) (by decide)

/-! ### Claim C9 -/

/-- C9: `configure_shell` is append-only on the selected rc file: when the
pre-existing content lacks the marker, no path other than the selected rc
file changes, and the rc file's new content has the original content as a
prefix (the suffix being empty exactly when the write failed). -/
theorem claim_C9_append_only (env : Env) (p rc : String) (st : St)
    (hrc : rcFileFor env = some rc)
    (hm : markerPresent (st.fs rc) = false) :
    (∀ q, q ≠ rc → (configure_shell env p st).fs q = st.fs q) ∧
    (∃ suffix, oldContent ((configure_shell env p st).fs rc) =
      oldContent (st.fs rc) ++ suffix) := by
  rw [configure_shell_some env p rc st hrc]
  cases hw : env.writeFails rc with
  | true =>
    rw [configure_rc_fail env p rc st hm hw]
    exact ⟨fun q hq => rfl, "", by simp⟩
  | false =>
    rw [configure_rc_write env p rc st hm hw]
    refine ⟨fun q hq => by simp [hq], blockText p, by simp [oldContent]⟩

theorem claim_C9_witness :
    ((configure_shell envZsh "/x" St.init).fs "/other" = St.init.fs "/other") ∧
    ∃ suffix, oldContent ((configure_shell envZsh "/x" St.init).fs "/home/u/.zshrc") =
      oldContent (St.init.fs "/home/u/.zshrc") ++ suffix := by
  have h := claim_C9_append_only envZsh "/x" "/home/u/.zshrc" St.init (by decide) (by decide)
  exact ⟨h.1 "/other" (by decide), h.2⟩

/-! ### Claim C10 -/

/-- C10: with `SHELL` entirely unset, `configure_shell` reads the empty
string, classifies it as unclassified, logs the warning and changes no
file; and an unset `SHELL` never affects the exit code: whenever
`install_dependencies` succeeds, `main` still exits `0`. -/
theorem claim_C10_unset_shell (env : Env) (st : St)
    (h : env.shellVar = none) :
    (∀ p st2, configure_shell env p st2 =
      st2.addLog "Could not detect shell RC file. Please manually add configuration." Color.red ∧
      (configure_shell env p st2).fs = st2.fs) ∧
    ((install_dependencies env
        (st.addLog "=== Secret Manager Installer ===" Color.green)).1 = .ok () →
      (main env st).1 = 0) := by
  have hsh : env.shellVar.getD "" = "" := by rw [h]; rfl
  have hz : strContains "" "zsh" = false := by decide
  have hb : strContains "" "bash" = false := by decide
  have hrc : rcFileFor env = none := by
    simp [rcFileFor, hsh, hz, hb]
  refine ⟨fun p st2 => ?_, main_ok_of_deps_ok env st⟩
  have hc := configure_shell_none env p st2 hrc
  exact ⟨hc, by rw [hc]; rfl⟩

theorem claim_C10_witness :
    (configure_shell envNoShell "/x" St.init).fs = St.init.fs ∧
    (main envNoShell St.init).1 = 0 := by
  have h := claim_C10_unset_shell envNoShell St.init rfl
  exact ⟨(h.1 "/x" St.init).2, h.2 rfl⟩

/-! ### More copy-loop helpers -/

lemma copyFile_dst_mode (a t n : String) (st : St) (fd : FileData)
    (h : st.fs (joinPath a n) = some fd) :
    (copyFile a t n st).fs (joinPath t n) =
      some { content := fd.content, mode := 493 } := by
  rw [copyFile_fs_some a t n st fd h]
  simp

lemma copyFile_preserve (a t n : String) (st : St) (q : String)
    (hq : q ≠ joinPath t n) :
    (copyFile a t n st).fs q = st.fs q := by
  cases h : st.fs (joinPath a n) with
  | some fd =>
    rw [copyFile_fs_some a t n st fd h]
    simp [hq]
  | none => rw [copyFile_fs_none a t n st h]

lemma copyFile_logs_suffix (a t n : String) (st : St) :
    ∃ l, (copyFile a t n st).logs = st.logs ++ l := by
  cases h : st.fs (joinPath a n) with
  | some fd =>
    exact ⟨[⟨s!"Copied {n} to {t}", Color.green⟩], by simp [copyFile, h]⟩
  | none =>
    exact ⟨[⟨s!"Warning: Asset {n} not found in {a}", Color.red⟩], by simp [copyFile, h]⟩

lemma ensureTargetDir_logs_suffix (env : Env) (st : St) :
    ∃ l, (ensureTargetDir env st).logs = st.logs ++ l := by
  by_cases hd : (st.dirs (targetDirOf env) || (st.fs (targetDirOf env)).isSome) = true
  · exact ⟨[], by simp [ensureTargetDir, hd]⟩
  · exact ⟨[⟨"Created directory: " ++ targetDirOf env, Color.green⟩],
      by simp [ensureTargetDir, hd, toString]⟩

/-! ### Claim C2 -/

/-- C2: `main` exits `0` or `1`; it exits `1` exactly when
`install_dependencies` raised; every such raise is a `CalledProcessError`
of one of the four required (`check=True`) commands with the non-zero exit
status the environment assigned to it; the failure is caught at the top
boundary and logged with its rendered cause.  Completion (including runs
that only degraded non-fatally) exits `0`. -/
theorem claim_C2_exit_codes (env : Env) (st : St) :
    ((main env st).1 = 0 ∨ (main env st).1 = 1) ∧
    ((main env st).1 = 1 ↔
      ∃ e stE, install_dependencies env
        (st.addLog "=== Secret Manager Installer ===" Color.green) = (.error e, stE)) ∧
    (∀ e stE, install_dependencies env
        (st.addLog "=== Secret Manager Installer ===" Color.green) = (.error e, stE) →
      (∃ argv code, e = .calledProcessError argv code ∧ argv ∈ requiredCmds ∧
        env.exitCode argv = code ∧ code ≠ 0) ∧
      (main env st).2.logs = stE.logs ++
        [⟨"\nInstallation failed: " ++ Exc.render e, Color.red⟩]) := by
  rcases hI : install_dependencies env
      (st.addLog "=== Secret Manager Installer ===" Color.green) with ⟨r, stA⟩
  cases r with
  | ok u =>
    cases u
    refine ⟨Or.inl (by simp [main, hI]), ⟨fun h1 => ?_, fun h2 => ?_⟩, fun e stE hE => ?_⟩
    · simp [main, hI] at h1
    · rcases h2 with ⟨e, stE, hE⟩
      simp at hE
    · simp at hE
  | error e =>
    refine ⟨Or.inr (by simp [main, hI]), ⟨fun _ => ⟨e, stA, rfl⟩, fun _ => by simp [main, hI]⟩,
      fun e2 stE hE => ?_⟩
    have he : e = e2 := by
      have h1 := congrArg Prod.fst hE
      simpa using h1
    have hst : stA = stE := by
      have h2 := congrArg Prod.snd hE
      simpa using h2
    subst he
    subst hst
    refine ⟨install_deps_error env _ e stA hI, ?_⟩
    simp only [main]
    rw [hI]
    simp [St.addLog, toString]

/-- A Linux host with `apt-get` present whose repository-refresh command
exits `1`: the required `sudo apt-get update` fails. -/
def envAptFail : Env :=
  { system := "Linux", which := fun b => b == "apt-get", shellVar := some "/bin/bash",
    home := "/home/u", current_dir := "/inst",
    exitCode := fun argv => if argv = ["sudo", "apt-get", "update"] then 1 else 0,
    writeFails := fun _ => false }

theorem claim_C2_witness : (main envAptFail St.init).1 = 1 := by
  have h1 : (install_dependencies envAptFail
      (St.init.addLog "=== Secret Manager Installer ===" Color.green)).1 =
      .error (.calledProcessError ["sudo", "apt-get", "update"] 1) := by
    simp [install_dependencies, subprocessRun, envAptFail, St.addLog, St.init]
  exact (claim_C2_exit_codes envAptFail St.init).2.1.mpr
    ⟨.calledProcessError ["sudo", "apt-get", "update"] 1,
     (install_dependencies envAptFail
       (St.init.addLog "=== Secret Manager Installer ===" Color.green)).2,
     by rw [← h1]⟩

/-! ### Claim C3 -/

/-- A macOS host with Homebrew present whose optional cask install exits
`1`; every other command succeeds. -/
def envCask : Env :=
  { system := "Darwin", which := fun b => b == "brew", shellVar := some "/bin/zsh",
    home := "/home/u", current_dir := "/inst",
    exitCode := fun argv => if argv = ["brew", "install", "--cask", "keepassxc"] then 1 else 0,
    writeFails := fun _ => false }

/-- Like `envCask` but with the cask install succeeding. -/
def envCaskOk : Env :=
  { envCask with exitCode := fun _ => 0 }

/-- C3 counterexample: the optional macOS cask install exits non-zero, yet
the transcript holds only the two pre-invocation lines — no entry at any
severity reports the failure — and it is identical to the transcript of a
run whose cask install succeeds.  Execution continued (both commands were
spawned) and `install_dependencies` returned success, so the failure was
silently ignored, not reported at warning severity. -/
theorem claim_C3_counterexample :
    envCask.exitCode ["brew", "install", "--cask", "keepassxc"] = 1 ∧
    (install_dependencies envCask St.init).1 = .ok () ∧
    (install_dependencies envCask St.init).2.logs =
      [⟨"Detected OS: Darwin", Color.green⟩,
       ⟨"Installing dependencies via Homebrew...", Color.yellow⟩] ∧
    (install_dependencies envCask St.init).2.runs =
      [["brew", "install", "--cask", "keepassxc"], ["brew", "install", "jq", "gnupg"]] ∧
    (install_dependencies envCask St.init).2.logs =
      (install_dependencies envCaskOk St.init).2.logs := by
  refine ⟨by decide, ?_, by decide, by decide, by decide⟩
  have h := install_deps_darwin_brew envCask St.init rfl rfl
  rw [h]
  simp [subprocessRun, envCask]

/-- C3 (amended): when a non-required command exits non-zero, execution
continues with nothing reported to the Logger.  On macOS with Homebrew
present the run reaches the required install carrying only the two
pre-invocation log lines, whatever the optional cask command's exit
status: the optional failure is silently ignored. -/
theorem claim_C3_optional_failure_silent (env : Env) (st : St)
    (h1 : env.system = "Darwin") (h2 : env.which "brew" = true)
    (h3 : env.exitCode ["brew", "install", "--cask", "keepassxc"] ≠ 0) :
    install_dependencies env st =
      subprocessRun env ["brew", "install", "jq", "gnupg"] true
        { st with
          logs := st.logs ++ [⟨"Detected OS: Darwin", Color.green⟩,
                              ⟨"Installing dependencies via Homebrew...", Color.yellow⟩],
          runs := st.runs ++ [["brew", "install", "--cask", "keepassxc"]] } ∧
    (install_dependencies env st).2.logs =
      st.logs ++ [⟨"Detected OS: Darwin", Color.green⟩,
                  ⟨"Installing dependencies via Homebrew...", Color.yellow⟩] := by
  have hmain := install_deps_darwin_brew env st h1 h2
  refine ⟨hmain, ?_⟩
  rw [hmain, subprocessRun_logs]

theorem claim_C3_amended_witness :
    (install_dependencies envCask St.init).2.logs =
      St.init.logs ++ [⟨"Detected OS: Darwin", Color.green⟩,
                       ⟨"Installing dependencies via Homebrew...", Color.yellow⟩] :=
  (claim_C3_optional_failure_silent envCask St.init rfl rfl (by decide)).2

/-! ### Claim C4 -/

/-- C4: for every platform variant whose package-manager binary is absent
from the search path (unsupported systems have none to begin with),
`install_dependencies` raises no exception and spawns no command: it
returns success having only appended log lines, among them a red
manual-install guidance line. -/
theorem claim_C4_no_pm_logs_only (env : Env) (st : St)
    (h : ∀ b, pmFor env.system = some b → env.which b = false) :
    ∃ msgs, install_dependencies env st = (.ok (), { st with logs := st.logs ++ msgs }) ∧
      (install_dependencies env st).2.runs = st.runs ∧
      msgs ≠ [] ∧ ∃ m ∈ msgs, strContains m.msg "manually" = true ∧ m.color = Color.red := by
  obtain ⟨msgs, hEq, hne, hm⟩ := install_deps_no_pm env st h
  exact ⟨msgs, hEq, by rw [hEq], hne, hm⟩

theorem claim_C4_witness :
    ∃ msgs, install_dependencies envZsh St.init =
        (.ok (), { St.init with logs := St.init.logs ++ msgs }) ∧
      (install_dependencies envZsh St.init).2.runs = St.init.runs ∧
      msgs ≠ [] ∧ ∃ m ∈ msgs, strContains m.msg "manually" = true ∧ m.color = Color.red :=
  claim_C4_no_pm_logs_only envZsh St.init (fun b _ => rfl)

/-! ### Claim C7 -/

lemma setup_files_fst (env : Env) (st : St) :
    (setup_files env st).1 = targetDirOf env := rfl

lemma setup_files_snd (env : Env) (st : St) :
    (setup_files env st).2 =
      copyFile (assetsDirOf env) (targetDirOf env) "get-secrets.js"
        (copyFile (assetsDirOf env) (targetDirOf env) "manage-secrets.sh"
          (ensureTargetDir env st)) := rfl

/-- C7: every asset in the fixed list whose source file exists is present
at the destination after `setup_files` with permission bits exactly
`0o755 = 493` — readable and executable by owner, group and other,
writable by owner. -/
theorem claim_C7_asset_mode (env : Env) (st : St) (name : String)
    (hname : name ∈ files_to_copy)
    (hsrc : ∃ fd, st.fs (joinPath (assetsDirOf env) name) = some fd) :
    ∃ fd, (setup_files env st).2.fs (joinPath (setup_files env st).1 name) = some fd ∧
      fd.mode = 493 := by
  obtain ⟨fd, hfd⟩ := hsrc
  rw [setup_files_fst, setup_files_snd]
  simp only [files_to_copy, List.mem_cons, List.not_mem_nil, or_false] at hname
  have hfs1 : (ensureTargetDir env st).fs = st.fs := ensureTargetDir_fs env st
  rcases hname with h | h
  · subst h
    have hdst : (copyFile (assetsDirOf env) (targetDirOf env) "manage-secrets.sh"
        (ensureTargetDir env st)).fs (joinPath (targetDirOf env) "manage-secrets.sh") =
        some { content := fd.content, mode := 493 } :=
      copyFile_dst_mode _ _ _ _ fd (by rw [hfs1]; exact hfd)
    have hpres := copyFile_preserve (assetsDirOf env) (targetDirOf env) "get-secrets.js"
      (copyFile (assetsDirOf env) (targetDirOf env) "manage-secrets.sh" (ensureTargetDir env st))
      (joinPath (targetDirOf env) "manage-secrets.sh")
      (join_sh_ne_js (targetDirOf env) (targetDirOf env))
    exact ⟨{ content := fd.content, mode := 493 }, by rw [hpres, hdst], rfl⟩
  · subst h
    have hsrc2 : ∃ g, (copyFile (assetsDirOf env) (targetDirOf env) "manage-secrets.sh"
        (ensureTargetDir env st)).fs (joinPath (assetsDirOf env) "get-secrets.js") = some g := by
      by_cases he : joinPath (assetsDirOf env) "get-secrets.js" =
          joinPath (targetDirOf env) "manage-secrets.sh"
      · cases hf1 : (ensureTargetDir env st).fs
            (joinPath (assetsDirOf env) "manage-secrets.sh") with
        | none =>
          refine ⟨fd, ?_⟩
          rw [copyFile_fs_none _ _ _ _ hf1, hfs1]
          exact hfd
        | some g1 =>
          refine ⟨{ content := g1.content, mode := 493 }, ?_⟩
          rw [he]
          exact copyFile_dst_mode _ _ _ _ g1 hf1
      · refine ⟨fd, ?_⟩
        rw [copyFile_preserve _ _ _ _ _ he, hfs1]
        exact hfd
    obtain ⟨g, hg⟩ := hsrc2
    exact ⟨{ content := g.content, mode := 493 }, copyFile_dst_mode _ _ _ _ g hg, rfl⟩

/-- A state in which the `manage-secrets.sh` asset source exists under the
installer's asset directory. -/
def stAssets : St :=
  { logs := [], runs := [],
    fs := fun p => if p = "/inst/assets/manage-secrets.sh" then
        some { content := "#!/bin/sh", mode := 420 }
      else none,
    dirs := fun _ => false }

theorem claim_C7_witness :
    ∃ fd, (setup_files envZsh stAssets).2.fs
        (joinPath (setup_files envZsh stAssets).1 "manage-secrets.sh") = some fd ∧
      fd.mode = 493 :=
  claim_C7_asset_mode envZsh stAssets "manage-secrets.sh" (by decide)
    ⟨{ content := "#!/bin/sh", mode := 420 }, by decide⟩

/-! ### Claim C8 -/

/-- C8: a missing asset source is non-fatal: `setup_files` logs a red
warning naming the asset, skips it (the asset's destination is untouched),
continues, and still returns the install directory path; and a missing
asset never changes the exit code: whenever `install_dependencies`
succeeds, `main` exits `0`. -/
theorem claim_C8_missing_asset (env : Env) (st : St) (name : String)
    (hname : name ∈ files_to_copy)
    (hmiss : st.fs (joinPath (assetsDirOf env) name) = none) :
    (setup_files env st).1 = targetDirOf env ∧
    (⟨"Warning: Asset " ++ name ++ " not found in " ++ assetsDirOf env, Color.red⟩ : LogMsg) ∈
      (setup_files env st).2.logs ∧
    (setup_files env st).2.fs (joinPath (targetDirOf env) name) =
      st.fs (joinPath (targetDirOf env) name) ∧
    (∀ st0 : St, (install_dependencies env
        (st0.addLog "=== Secret Manager Installer ===" Color.green)).1 = .ok () →
      (main env st0).1 = 0) := by
  have hfs1 : (ensureTargetDir env st).fs = st.fs := ensureTargetDir_fs env st
  simp only [files_to_copy, List.mem_cons, List.not_mem_nil, or_false] at hname
  refine ⟨setup_files_fst env st, ?_, ?_, fun st0 h0 => main_ok_of_deps_ok env st0 h0⟩
  · rw [setup_files_snd]
    rcases hname with h | h
    · subst h
      have hm1 : (ensureTargetDir env st).fs
          (joinPath (assetsDirOf env) "manage-secrets.sh") = none := by
        rw [hfs1]
        exact hmiss
      obtain ⟨l2, hl2⟩ := copyFile_logs_suffix (assetsDirOf env) (targetDirOf env)
        "get-secrets.js"
        (copyFile (assetsDirOf env) (targetDirOf env) "manage-secrets.sh" (ensureTargetDir env st))
      rw [hl2, copyFile_logs_none _ _ _ _ hm1]
      simp [toString]
    · subst h
      have hm2 : (copyFile (assetsDirOf env) (targetDirOf env) "manage-secrets.sh"
          (ensureTargetDir env st)).fs (joinPath (assetsDirOf env) "get-secrets.js") = none := by
        rw [copyFile_preserve _ _ _ _ _ (Ne.symm (join_sh_ne_js (targetDirOf env) (assetsDirOf env))),
          hfs1]
        exact hmiss
      rw [copyFile_logs_none _ _ _ _ hm2]
      simp [toString]
  · rw [setup_files_snd]
    rcases hname with h | h
    · subst h
      have hm1 : (ensureTargetDir env st).fs
          (joinPath (assetsDirOf env) "manage-secrets.sh") = none := by
        rw [hfs1]
        exact hmiss
      rw [copyFile_preserve _ _ _ _ _ (join_sh_ne_js (targetDirOf env) (targetDirOf env)),
        copyFile_fs_none _ _ _ _ hm1, hfs1]
    · subst h
      have hm2 : (copyFile (assetsDirOf env) (targetDirOf env) "manage-secrets.sh"
          (ensureTargetDir env st)).fs (joinPath (assetsDirOf env) "get-secrets.js") = none := by
        rw [copyFile_preserve _ _ _ _ _ (Ne.symm (join_sh_ne_js (targetDirOf env) (assetsDirOf env))),
          hfs1]
        exact hmiss
      rw [copyFile_fs_none _ _ _ _ hm2,
        copyFile_preserve _ _ _ _ _ (Ne.symm (join_sh_ne_js (targetDirOf env) (targetDirOf env))),
        hfs1]

theorem claim_C8_witness :
    (setup_files envZsh St.init).1 = targetDirOf envZsh ∧
    (⟨"Warning: Asset " ++ "manage-secrets.sh" ++ " not found in " ++ assetsDirOf envZsh,
      Color.red⟩ : LogMsg) ∈ (setup_files envZsh St.init).2.logs ∧
    (main envZsh St.init).1 = 0 := by
  have h := claim_C8_missing_asset envZsh St.init "manage-secrets.sh" (by decide) (by decide)
  exact ⟨h.1, h.2.1, h.2.2.2 St.init rfl⟩

end SecretManager
